import Mathlib

/-!
Shallow embedding of the MSE playback session manager of this repository
(src/unnamed/part_003): the loadVideo / startStream / activeStart restart
machinery, the appendNext sink appender with its decode-fault recovery,
the cleanupBuffer trim, the fetch read loop with its buffered-ahead
throttle, and the abort-controller discipline.

Times on the media timeline are rationals (JS numbers holding second
offsets); wall-clock milliseconds (Date.now()) are integers.  The browser
sink (the SourceBuffer) is an external stateful resource: its `updating`
flag as seen by successive polls is an oracle `Nat → Bool`, and how it
answers an appendBuffer, remove or fetch call is an explicit input.
Single-threaded HTML event-loop semantics justify two modelling facts
recorded where they are used: microtasks drain before the next task, and
aborting a fetch rejects its pending `reader.read()` with an AbortError.
-/

/-- Readiness of the MediaSource (`closed`, `open`, `ended`). -/
inductive MSReady
  | closed
  | opened
  | ended
deriving DecidableEq, Repr

/-- Observable effects of the player code on its environment, in program
order: controller churn, SourceBuffer operations, fetches, logs. -/
inductive Act
  | cancelFetch
  | newController
  | clearQueue
  | sbAbort
  | sbRemoveAll
  | sbRemove (upTo : ℚ)
  | setOffset (t : ℚ)
  | fetchStart (t : ℚ) (audio : Int)
  | warnFlushFailed
  | warnReopenFailed
  | scheduleRetry
  | reload (t : ℚ)
  | sleepThrottle
  | readChunk
  | enqueue (v : Nat)
  | sbAppend (v : Nat)
  | logAppendError
  | endOfStream
  | warnEosTimeout
  | warnRecover
  | logGiveUp
  | logFatal
  | logStreamErr
deriving DecidableEq, Repr

/-- part_003 line 267: retry budget of startStream (`maxRetries`). -/
def maxRetries : Nat := 20

/-- part_003 line 285: bound of the post-abort updating poll (`safeties`). -/
def safetiesBound : Nat := 20

/-- part_003 line 295: bound of the post-flush updating poll (`s2`). -/
def flushWaitBound : Nat := 50

/-- part_003 line 369: bound of the end-of-stream drain poll (`eosSafeties`). -/
def eosWaitBound : Nat := 100

/-- A `while (busy && count < bound) { await sleep; count++ }` poll against
the oracle `busy`, entered at tick `start`: returns the tick at which the
loop stops (either `busy` turned false there, or the bound ran out). -/
def waitTicks (busy : Nat → Bool) (start : Nat) : Nat → Nat
  | 0 => start
  | bound + 1 => if busy start then waitTicks busy (start + 1) bound else start

/-- Outcome of the error-check phase of appendNext (part_003 lines 219-243). -/
inductive ErrOutcome
  | proceed
  | restart (target : ℚ)
  | giveUp
  | fatal
deriving DecidableEq, Repr

/-- part_003 lines 219-243: the recovery decision taken by appendNext when
videoElement.error is set.  `errCode` is the MediaError code (3 is
MEDIA_ERR_DECODE); the second component is the updated global
lastDecodeErrorTime. -/
def errorCheck (errCode : Option Nat) (now last : Int) (cur : ℚ) : ErrOutcome × Int :=
  match errCode with
  | none => (.proceed, last)
  | some c =>
    if c = 3 then
      if now - last > 5000 then (.restart (cur + 2), now)
      else (.giveUp, last)
    else (.fatal, last)

/-- How the sink answers a sourceBuffer.appendBuffer call. -/
inductive AppendRes
  | ok
  | quota
  | other
deriving DecidableEq, Repr

/-- The environment appendNext reads: MediaSource readiness, the media
element's error code, wall-clock now, playback position, the sink's
updating flag, and the sink's answer to an append attempt. -/
structure ANEnv where
  rs : MSReady
  errCode : Option Nat
  now : Int
  cur : ℚ
  updating : Bool
  res : AppendRes
deriving DecidableEq, Repr

/-- part_003 lines 203-213: on capacity pressure, remove buffered content
up to 30 seconds behind the playback position (nothing when the position
is within the first 30 seconds, or the source is not open, or the sink is
busy). -/
def cleanupBuffer (rs : MSReady) (updating : Bool) (cur : ℚ) : List Act :=
  if rs = .opened ∧ updating = false then
    if cur - 30 > 0 then [Act.sbRemove (cur - 30)] else []
  else []

/-- part_003 lines 215-258: one invocation of appendNext.  Returns the
emitted actions, the new pending-chunk queue, and the new global
lastDecodeErrorTime.  On a quota rejection the head chunk is NOT shifted:
it stays at the head of the queue and cleanupBuffer is invoked; on any
other append error the head is shifted out after a logged error. -/
def appendNext (env : ANEnv) (queue : List Nat) (last : Int) : List Act × List Nat × Int :=
  if env.rs ≠ .opened then ([], queue, last)
  else
    match errorCheck env.errCode env.now last env.cur with
    | (.restart target, last') => ([Act.warnRecover, Act.reload target], queue, last')
    | (.giveUp, last') => ([Act.logGiveUp], queue, last')
    | (.fatal, last') => ([Act.logFatal], queue, last')
    | (.proceed, last') =>
      match queue with
      | [] => ([], [], last')
      | c :: rest =>
        if env.updating then ([], c :: rest, last')
        else
          match env.res with
          | .ok => ([Act.sbAppend c], rest, last')
          | .quota => (cleanupBuffer env.rs false env.cur, c :: rest, last')
          | .other => ([Act.logAppendError], rest, last')

/-- The script-level globals of part_003 lines 56-59 (the AbortController
and MediaSource objects are abstracted to presence and a generation
counter). -/
structure Globals where
  currentAudioTrackIndex : Int
  lastDecodeErrorTime : Int
  hasAbortCtrl : Bool
  generation : Nat
deriving DecidableEq, Repr

/-- part_003 lines 55-59: state at page load. -/
def initGlobals : Globals :=
  { currentAudioTrackIndex := 0, lastDecodeErrorTime := 0, hasAbortCtrl := false,
    generation := 0 }

/-- part_003 lines 62-74: the synchronous entry of loadVideo.  It aborts
and drops the tracked controller and installs a fresh MediaSource
(generation bump); it touches no other global, in particular
lastDecodeErrorTime survives a full reload. -/
def loadVideoEntry (g : Globals) : List Act × Globals :=
  ((if g.hasAbortCtrl then [Act.cancelFetch] else []),
   { g with hasAbortCtrl := false, generation := g.generation + 1 })

/-- Inputs of one activeStart attempt (part_003 lines 269-346): whether a
fetch is in flight, the MediaSource readiness during the synchronous
pre-fetch phase, the updating-flag oracle, whether the sink accepts the
full-range remove (it throws, e.g., while the duration is unset), the
retryCount so far, and the stream response (ok flag, parsed
X-Actual-Start header, readiness when the response arrives). -/
structure StartEnv where
  hasActiveFetch : Bool
  rs : MSReady
  upd : Nat → Bool
  flushOk : Bool
  retryCount : Nat
  fetchOk : Bool
  header : Option ℚ
  rsAtResponse : MSReady

/-- How one activeStart attempt ends. -/
inductive StartOutcome
  | retryScheduled (newRetryCount : Nat)
  | gaveUp
  | reloaded (t : ℚ)
  | fetchFailed
  | streaming (finalOffset : ℚ)
deriving DecidableEq, Repr

/-- part_003 lines 271-281: abort the previous fetch, make a fresh
controller, clear the shared queue, abort any current SourceBuffer
operation (only when the source is open). -/
def startActs0 (env : StartEnv) : List Act :=
  (if env.hasActiveFetch then [Act.cancelFetch] else []) ++
    [Act.newController, Act.clearQueue] ++
    (if env.rs = .opened then [Act.sbAbort] else [])

/-- part_003 lines 283-300: after the bounded updating poll, attempt the
full flush remove(0, Infinity) when the source is open and the sink went
idle; a sink that rejects the flush only gets a logged warning (the catch
at line 299). -/
def startActs1 (env : StartEnv) : List Act :=
  startActs0 env ++
    (if env.rs = .opened ∧ env.upd (waitTicks env.upd 0 safetiesBound) = false then
       (if env.flushOk then [Act.sbRemoveAll] else [Act.warnFlushFailed])
     else [])

/-- The poll tick at which activeStart re-checks sourceBuffer.updating on
line 302: after the safeties poll, and additionally after the s2 poll
when the flush was issued. -/
def preFetchTick (env : StartEnv) : Nat :=
  if env.rs = .opened ∧ env.upd (waitTicks env.upd 0 safetiesBound) = false ∧
      env.flushOk = true then
    waitTicks env.upd (waitTicks env.upd 0 safetiesBound + 1) flushWaitBound
  else waitTicks env.upd 0 safetiesBound

/-- part_003 lines 336-345: the timeline offset applied once the stream
response arrives with the source still open: the parsed X-Actual-Start
header when present, the raw requested time otherwise. -/
def responseOffset (header : Option ℚ) (t : ℚ) : ℚ :=
  match header with
  | some a2 => a2
  | none => t

/-- part_003 lines 269-346: one activeStart attempt, from aborting the
previous fetch up to applying the X-Actual-Start header of the stream
response.  On an `ended` source the re-open attempt via sourceBuffer
.abort() throws (MSE allows abort only on an open source), so the code
falls through to a full reload; on a `closed` source it reloads directly.
The final timestampOffset is recorded in the `streaming` outcome. -/
def activeStartRun (env : StartEnv) (t : ℚ) (audio : Int) : List Act × StartOutcome :=
  if env.upd (preFetchTick env) = true then
    if env.retryCount < maxRetries then
      (startActs1 env ++ [Act.scheduleRetry], .retryScheduled (env.retryCount + 1))
    else (startActs1 env, .gaveUp)
  else if env.rs = .opened then
    if env.fetchOk then
      if env.rsAtResponse = .opened then
        (startActs1 env ++ [Act.setOffset t, Act.fetchStart t audio,
           Act.setOffset (responseOffset env.header t)],
         .streaming (responseOffset env.header t))
      else (startActs1 env ++ [Act.setOffset t, Act.fetchStart t audio], .streaming t)
    else (startActs1 env ++ [Act.setOffset t, Act.fetchStart t audio], .fetchFailed)
  else
    (startActs1 env ++ (if env.rs = .ended then [Act.warnReopenFailed] else []) ++
       [Act.reload t], .reloaded t)

/-- State read at the top of the fetch read loop (part_003 lines 351-362):
the abort signal, source readiness, the furthest buffered edge (none when
no ranges are buffered), and the playback position. -/
structure LoopEnv where
  aborted : Bool
  rs : MSReady
  bufferedEnd : Option ℚ
  cur : ℚ
deriving Repr

/-- What the top of the loop decides to do next. -/
inductive LoopNext
  | exit
  | throttled
  | reading
deriving DecidableEq, Repr

/-- part_003 lines 351-364: the top of the read loop.  A fired abort
signal or a non-open source exits; a buffered margin strictly over 30
seconds sleeps without pulling (the connection stays open: no cancel
action is emitted); otherwise the next chunk is pulled. -/
def loopTop (e : LoopEnv) : List Act × LoopNext :=
  if e.aborted = true then ([], .exit)
  else if e.rs ≠ .opened then ([], .exit)
  else
    match e.bufferedEnd with
    | some en =>
        if en - e.cur > 30 then ([Act.sleepThrottle], .throttled)
        else ([Act.readChunk], .reading)
    | none => ([Act.readChunk], .reading)

/-- Result of an awaited reader.read(): `ok = false` is a rejection
(AbortError), otherwise the stream reports `done` and possibly a chunk. -/
structure ReadRes where
  ok : Bool
  done : Bool
  value : Option Nat
deriving DecidableEq, Repr

/-- part_003 lines 366-379: the end-of-stream branch after reader.read()
reports done: only when the source is open and the signal has not fired,
poll until the sink and queue drain (bounded by eosSafeties) and then
either finalize with endOfStream or warn about the timeout.  `busy i`
reports (sourceBuffer.updating || queue.length > 0) at poll tick i. -/
def eosFinalize (busy : Nat → Bool) (rs : MSReady) (aborted : Bool) : List Act :=
  if rs = .opened ∧ aborted = false then
    if busy (waitTicks busy 0 eosWaitBound) = false then [Act.endOfStream]
    else [Act.warnEosTimeout]
  else []

/-- part_003 lines 364-394: resuming the loop body after an awaited
reader.read().  Aborting a fetch rejects its pending read (fetch
semantics), and on the single-threaded event loop a resolved read's
continuation always runs before any task that could fire the abort, so a
cancelled loop resumes here only through the rejection branch, which the
AbortError catch at lines 396-398 turns into a silent exit. -/
def resumeRead (aborted : Bool) (r : ReadRes) (env : ANEnv) (queue : List Nat)
    (last : Int) (eosBusy : Nat → Bool) : List Act × List Nat × Int :=
  if aborted = true then ([], queue, last)
  else if r.ok = false then ([], queue, last)
  else
    let eosActs := if r.done then eosFinalize eosBusy env.rs aborted else []
    match r.value with
    | none => (eosActs, queue, last)
    | some v =>
        if env.errCode.isSome then (eosActs ++ [Act.enqueue v, Act.logStreamErr],
          queue ++ [v], last)
        else if env.updating = false then
          match appendNext env (queue ++ [v]) last with
          | (acts, q', last') => (eosActs ++ Act.enqueue v :: acts, q', last')
        else (eosActs ++ [Act.enqueue v], queue ++ [v], last)

/-- part_003 lines 358-361: resuming after the one-second throttle sleep:
appendNext is invoked only when the shared queue is empty and the sink is
idle, then control returns to the top of the loop. -/
def resumeThrottle (env : ANEnv) (queue : List Nat) (last : Int) :
    List Act × List Nat × Int :=
  if queue = [] ∧ env.updating = false then appendNext env [] last
  else ([], queue, last)

/-- The controller state of the whole script.  Every loadVideo call
creates one sourceopen closure with its own local abortController chain
(part_003 line 200); `closures` lists them newest first - only the newest
closure's MediaSource is still attached to the video element, every older
one was detached (hence closed) when loadVideo replaced videoElement.src
at line 74.  Each closure's list holds its controllers newest first as
pairs (allocation id, aborted flag); `tracked` is the id held by the
global currentAbortController (lines 59 and 273). -/
structure CtrlSys where
  nextId : Nat
  closures : List (List (Nat × Bool))
  tracked : Option Nat
deriving DecidableEq, Repr

/-- part_003 lines 56-59: page-load state - no closure, no controller. -/
def initCtrlSys : CtrlSys :=
  { nextId := 0, closures := [], tracked := none }

/-- Fire the abort signal of the controller with the given id, wherever
it lives. -/
def abortById (id : Nat) (cs : List (List (Nat × Bool))) :
    List (List (Nat × Bool)) :=
  cs.map fun c => c.map fun p => if p.1 = id then (p.1, true) else p

/-- part_003 lines 271-273 run inside closure `i`: abort that closure's
OWN current abortController (only it - the local variable of line 200),
then install a fresh one at its head.  Out-of-range `i` is a no-op. -/
def startFetchAt (nid : Nat) : List (List (Nat × Bool)) → Nat → List (List (Nat × Bool))
  | [], _ => []
  | c :: rest, 0 =>
      ((nid, false) ::
        (match c with
         | [] => []
         | p :: t => (p.1, true) :: t)) :: rest
  | c :: rest, n + 1 => c :: startFetchAt nid rest n

/-- The two controller-touching operations of the script.  `reload` is a
loadVideo call (lines 62-74): it aborts whatever controller the global
currentAbortController tracks, drops the tracker and prepends a fresh
closure whose MediaSource replaces the attached one.  `startFetch i` is
an activeStart run inside closure `i` (lines 271-273): it aborts only
that closure's local controller and makes the global tracker point at
the fresh one.  A stale closure - through a pending
setTimeout(activeStart, 100) retry or its still-installed
onseeking/onchange handlers - can run startFetch after a reload, so `i`
ranges over all closures, not just the newest. -/
inductive SessionOp
  | reload
  | startFetch (i : Nat)
deriving DecidableEq, Repr

def ctrlSysStep (s : CtrlSys) : SessionOp → CtrlSys
  | .reload =>
      { nextId := s.nextId,
        closures := [] ::
          (match s.tracked with
           | some id => abortById id s.closures
           | none => s.closures),
        tracked := none }
  | .startFetch i =>
      { nextId := s.nextId + 1,
        closures := startFetchAt s.nextId s.closures i,
        tracked := some s.nextId }

/-- The controller state produced by a sequence of operations starting
from page load. -/
def runSessionOps (ops : List SessionOp) : CtrlSys :=
  List.foldl ctrlSysStep initCtrlSys ops

/-- Controllers of one closure whose abort signal has not fired. -/
def liveCtrls (c : List (Nat × Bool)) : Nat :=
  (c.filter fun p => !p.2).length

/-- UI-handler effects: stream restarts and fetch cancellation versus pure
text-track DOM changes. -/
inductive UIAct
  | startStream (t : ℚ) (audio : Int)
  | cancelFetch
  | removeTextTracks
  | addTextTrack (idx : Int)
deriving DecidableEq, Repr

/-- part_003 lines 131-138: the audio-track select handler.  A genuinely
new index updates currentAudioTrackIndex and restarts the stream at the
current playback position; the same index does nothing. -/
def audioSelectOnChange (cur newIndex : Int) (curTime : ℚ) : Int × List UIAct :=
  if newIndex ≠ cur then (newIndex, [UIAct.startStream curTime newIndex])
  else (cur, [])

/-- part_003 lines 154-180: the subtitle-track select handler.  It removes
the existing text-track elements and, unless the selection is Off (-1),
adds the chosen side-channel track when it exists in the metadata list;
it never touches the byte stream. -/
def subtitleSelectOnChange (trackIndex : Int) (available : List Int) : List UIAct :=
  UIAct.removeTextTracks ::
    (if trackIndex ≠ -1 then
       (if trackIndex ∈ available then [UIAct.addTextTrack trackIndex] else [])
     else [])

/-- Whether a UI action cancels or restarts the byte stream. -/
def isStreamAct : UIAct → Bool
  | .startStream _ _ => true
  | .cancelFetch => true
  | _ => false

/-- Whether an action list contains an append to the sink. -/
def hasAppendAct (l : List Act) : Bool :=
  l.any fun a =>
    match a with
    | .sbAppend _ => true
    | _ => false

/-- part_003 lines 266-268 and 302-309: the chain of setTimeout(activeStart,
100) reschedules taken while the sink stays busy; counts how many retries
are scheduled from retryCount `rc` on, given the busy oracle per attempt. -/
def retriesScheduled (busy : Nat → Bool) (rc : Nat) : Nat :=
  if h : busy rc = true ∧ rc < maxRetries then retriesScheduled busy (rc + 1) + 1
  else 0
termination_by maxRetries - rc
decreasing_by
  simp_wf
  omega

/-- Within one closure, every controller but the local current one has
been aborted. -/
def tailAborted (c : List (Nat × Bool)) : Bool :=
  c.tail.all fun p => p.2

/-- The per-closure invariant over the whole controller state. -/
def goodClosures (cs : List (List (Nat × Bool))) : Bool :=
  cs.all tailAborted

theorem tailAborted_abortMap (id : Nat) (c : List (Nat × Bool))
    (h : tailAborted c = true) :
    tailAborted (c.map fun p => if p.1 = id then (p.1, true) else p) = true := by
  cases c with
  | nil => rfl
  | cons p t =>
    simp only [tailAborted, List.tail_cons, List.map_cons, List.all_eq_true] at h ⊢
    intro x hx
    rcases List.mem_map.mp hx with ⟨q, hq, rfl⟩
    have hq2 := h q hq
    split <;> simp_all

theorem goodClosures_abortById (id : Nat) (cs : List (List (Nat × Bool)))
    (h : goodClosures cs = true) : goodClosures (abortById id cs) = true := by
  simp only [goodClosures, abortById, List.all_eq_true] at h ⊢
  intro c hc
  rcases List.mem_map.mp hc with ⟨c0, hc0, rfl⟩
  exact tailAborted_abortMap id c0 (h c0 hc0)

theorem goodClosures_startFetchAt (nid : Nat) :
    ∀ (cs : List (List (Nat × Bool))) (i : Nat), goodClosures cs = true →
      goodClosures (startFetchAt nid cs i) = true := by
  intro cs
  induction cs with
  | nil => intro i h; exact h
  | cons c rest ih =>
    intro i h
    simp only [goodClosures, List.all_cons, Bool.and_eq_true] at h
    cases i with
    | zero =>
      simp only [startFetchAt, goodClosures, List.all_cons, Bool.and_eq_true]
      refine ⟨?_, h.2⟩
      cases c with
      | nil => rfl
      | cons p t =>
        simpa [tailAborted] using h.1
    | succ n =>
      simp only [startFetchAt, goodClosures, List.all_cons, Bool.and_eq_true]
      exact ⟨h.1, ih n h.2⟩

theorem goodClosures_runSessionOps (ops : List SessionOp) :
    goodClosures (runSessionOps ops).closures = true := by
  have key : ∀ (l : List SessionOp) (s : CtrlSys), goodClosures s.closures = true →
      goodClosures (List.foldl ctrlSysStep s l).closures = true := by
    intro l
    induction l with
    | nil => intro s h; simpa using h
    | cons op rest ih =>
      intro s h
      refine ih (ctrlSysStep s op) ?_
      cases op with
      | reload =>
        cases htr : s.tracked with
        | none =>
          simpa [ctrlSysStep, htr, goodClosures, tailAborted] using h
        | some id =>
          have h2 := goodClosures_abortById id s.closures h
          simpa [ctrlSysStep, htr, goodClosures, tailAborted] using h2
      | startFetch i =>
        exact goodClosures_startFetchAt s.nextId s.closures i h
  exact key ops initCtrlSys rfl

theorem filter_live_nil_pairs : ∀ t : List (Nat × Bool), t.all (fun p => p.2) = true →
    t.filter (fun p => !p.2) = [] := by
  intro t
  induction t with
  | nil => intro _; rfl
  | cons q u ih =>
    intro h
    simp only [List.all_cons, Bool.and_eq_true] at h
    simp [List.filter_cons, h.1, ih h.2]

theorem liveCtrls_le_one (c : List (Nat × Bool)) (h : tailAborted c = true) :
    liveCtrls c ≤ 1 := by
  cases c with
  | nil => simp [liveCtrls]
  | cons p t =>
    have ht := filter_live_nil_pairs t (by simpa [tailAborted] using h)
    rcases p with ⟨id, b⟩
    cases b <;> simp [liveCtrls, List.filter_cons, ht]

theorem hasAppendAct_appendNext_nil (env : ANEnv) (last : Int) :
    hasAppendAct (appendNext env [] last).1 = false := by
  unfold appendNext
  split
  · rfl
  · rcases h : errorCheck env.errCode env.now last env.cur with ⟨o, l2⟩
    cases o <;> simp [h, hasAppendAct]

theorem waitTicks_le (busy : Nat → Bool) : ∀ (n s : Nat), waitTicks busy s n ≤ s + n := by
  intro n
  induction n with
  | zero => intro s; simp [waitTicks]
  | succ n ih =>
    intro s
    unfold waitTicks
    split
    · calc waitTicks busy (s + 1) n ≤ s + 1 + n := ih (s + 1)
        _ = s + (n + 1) := by omega
    · omega

theorem retriesScheduled_le (busy : Nat → Bool) :
    ∀ (n rc : Nat), maxRetries - rc ≤ n → retriesScheduled busy rc ≤ n := by
  intro n
  induction n with
  | zero =>
    intro rc h
    rw [retriesScheduled]
    split
    · rename_i hb
      obtain ⟨hb1, hb2⟩ := hb
      omega
    · exact Nat.le_refl 0
  | succ n ih =>
    intro rc h
    rw [retriesScheduled]
    split
    · rename_i hb
      obtain ⟨hb1, hb2⟩ := hb
      have := ih (rc + 1) (by omega)
      omega
    · exact Nat.zero_le _

/-- Claim C1: a cancelled fetch never appends to the sink after its abort
signal fires, and at most one fetch loop's chunks ever reach the source
buffer.  Conjuncts: a loop whose signal has fired exits at the top of the
loop with no actions; a cancelled loop's pending reader.read() resumes
only through the AbortError rejection, emitting nothing and leaving the
queue and recovery clock untouched; resuming the throttle sleep can never
emit a sink append (appendNext is gated on an empty queue there); every
reachable controller state - including runs where a stale closure's
activeStart fires after a reload and leaves a second globally-unaborted
controller - keeps at most one live controller PER CLOSURE, since
activeStart aborts its closure-local controller before creating a new
one; and appendNext of a closure whose MediaSource is not open does
nothing at all (the readyState guard of part_003 line 216).  Because at
most one closure's MediaSource is attached (hence open) at a time, the
appending loop is the single live loop of that closure, and cancelled
loops never append. -/
theorem cancelled_fetch_never_appends :
    (∀ (rs : MSReady) (be : Option ℚ) (cur : ℚ),
        loopTop { aborted := true, rs := rs, bufferedEnd := be, cur := cur } =
          ([], LoopNext.exit)) ∧
    (∀ (r : ReadRes) (env : ANEnv) (q : List Nat) (l : Int) (eb : Nat → Bool),
        resumeRead true r env q l eb = ([], q, l)) ∧
    (∀ (env : ANEnv) (q : List Nat) (l : Int),
        hasAppendAct (resumeThrottle env q l).1 = false) ∧
    (∀ ops : List SessionOp, ∀ c ∈ (runSessionOps ops).closures, liveCtrls c ≤ 1) ∧
    (∀ (env : ANEnv) (q : List Nat) (l : Int), env.rs ≠ .opened →
        appendNext env q l = ([], q, l)) := by
  refine ⟨?_, ?_, ?_, ?_, ?_⟩
  · intro rs be cur
    simp [loopTop]
  · intro r env q l eb
    simp [resumeRead]
  · intro env q l
    unfold resumeThrottle
    split
    · exact hasAppendAct_appendNext_nil env l
    · rfl
  · intro ops c hc
    have hg := goodClosures_runSessionOps ops
    simp only [goodClosures, List.all_eq_true] at hg
    exact liveCtrls_le_one c (hg c hc)
  · intro env q l h
    simp [appendNext, h]

/-- appendNext in a detached closure: its MediaSource is closed. -/
def closedAN : ANEnv :=
  { rs := .closed, errCode := none, now := 0, cur := 0, updating := false,
    res := .ok }

/-- Witness for C1, on the stale-closure interleaving itself: after the
initial load, a fetch, a reload, a stale-closure fetch and a new-closure
fetch, the stale closure's chain holds one live and one aborted
controller (a second live controller exists in the new closure, but each
closure has at most one); and a detached closure's appendNext no-ops. -/
theorem cancelled_fetch_never_appends_witness :
    liveCtrls [(1, false), (0, true)] ≤ 1 ∧
    appendNext closedAN [3] 0 = ([], [3], 0) :=
  ⟨cancelled_fetch_never_appends.2.2.2.1
      [SessionOp.reload, SessionOp.startFetch 0, SessionOp.reload,
        SessionOp.startFetch 1, SessionOp.startFetch 0]
      [(1, false), (0, true)] (by decide),
   cancelled_fetch_never_appends.2.2.2.2 closedAN [3] 0 (by decide)⟩

/-- Claim C6: at the top of the read loop, a furthest buffered edge more
than 30 seconds ahead of the playback position makes the loop sleep
(emitting only the throttle sleep, never a chunk pull and never a fetch
cancellation, so the connection stays open), while a margin at or below
the 30-second ceiling proceeds to pull the next chunk, which is how
pulling resumes once the margin has dropped. -/
theorem buffered_ahead_throttle :
    ∀ (en cur : ℚ),
      loopTop { aborted := false, rs := .opened, bufferedEnd := some en, cur := cur } =
        (if en - cur > 30 then ([Act.sleepThrottle], LoopNext.throttled)
         else ([Act.readChunk], LoopNext.reading)) := by
  intro en cur
  simp [loopTop]

/-- Claim C8: every polling wait of the stream-start and end-of-stream
logic is bounded: the safeties poll after the sourceBuffer abort stops
within 20 ticks, the s2 poll after the full flush within 50, the
eosSafeties drain poll before endOfStream within 100, the tick at which
activeStart re-checks the sink before fetching is bounded by their sum,
and the setTimeout(activeStart, 100) chain schedules at most maxRetries
(20) retries, whatever the sink does. -/
theorem polling_waits_bounded :
    (∀ (busy : Nat → Bool) (s : Nat), waitTicks busy s safetiesBound ≤ s + safetiesBound) ∧
    (∀ (busy : Nat → Bool) (s : Nat), waitTicks busy s flushWaitBound ≤ s + flushWaitBound) ∧
    (∀ (busy : Nat → Bool) (s : Nat), waitTicks busy s eosWaitBound ≤ s + eosWaitBound) ∧
    (∀ env : StartEnv, preFetchTick env ≤ safetiesBound + 1 + flushWaitBound) ∧
    (∀ busy : Nat → Bool, retriesScheduled busy 0 ≤ maxRetries) := by
  refine ⟨fun busy s => waitTicks_le busy safetiesBound s,
    fun busy s => waitTicks_le busy flushWaitBound s,
    fun busy s => waitTicks_le busy eosWaitBound s, ?_,
    fun busy => retriesScheduled_le busy maxRetries 0 (by omega)⟩
  intro env
  have h1 := waitTicks_le env.upd safetiesBound 0
  unfold preFetchTick
  split
  · have h2 := waitTicks_le env.upd flushWaitBound (waitTicks env.upd 0 safetiesBound + 1)
    omega
  · omega

/-- Claim C10: selecting the audio track whose index equals the current
selection is a complete no-op: the selected index is unchanged and no
action at all is emitted, in particular no stream restart and no fetch
cancellation. -/
theorem audio_same_index_noop :
    ∀ (cur : Int) (t : ℚ), audioSelectOnChange cur cur t = (cur, []) := by
  intro cur t
  simp [audioSelectOnChange]

/-- Claim C2: once a seek restart completes with the source open, the
sink's timeline offset recorded by the streaming outcome is exactly the
response's X-Actual-Start value whenever the endpoint communicated one
(in particular whenever it differs from the requested time), and the raw
requested time only when no actual start was reported. -/
theorem seek_applies_actual_start_offset (env : StartEnv) (t : ℚ) (audio : Int)
    (hok : env.fetchOk = true) (hrs : env.rsAtResponse = .opened) :
    (∀ off : ℚ, (activeStartRun env t audio).2 = .streaming off →
        off = responseOffset env.header t) ∧
    (∀ x : ℚ, responseOffset (some x) t = x) ∧ responseOffset none t = t := by
  refine ⟨?_, fun x => rfl, rfl⟩
  intro off h
  unfold activeStartRun at h
  repeat' split at h
  all_goals simp_all

/-- A seek to 3600 answered with actual start 3598 while the source stays
open. -/
def envActualStart : StartEnv :=
  { hasActiveFetch := true, rs := .opened, upd := fun _ => false, flushOk := true,
    retryCount := 0, fetchOk := true, header := some 3598, rsAtResponse := .opened }

/-- Witness for C2: the concrete seek to 3600 ends streaming at offset
3598, the endpoint's reported actual start. -/
theorem seek_applies_actual_start_offset_witness :
    (activeStartRun envActualStart 3600 1).2 = .streaming 3598 ∧
    (3598 : ℚ) = responseOffset envActualStart.header 3600 ∧
    responseOffset (some (3598 : ℚ)) 3600 = 3598 := by
  refine ⟨by decide, ?_, ?_⟩
  · exact (seek_applies_actual_start_offset envActualStart 3600 1 rfl rfl).1 3598 (by decide)
  · exact (seek_applies_actual_start_offset envActualStart 3600 1 rfl rfl).2.1 3598

/-- Claim C3: on a decode fault (MediaError code 3) more than 5000 ms
after the previous one, appendNext issues exactly one corrective restart,
a full reload targeted at the current position plus 2 seconds, and stamps
the cool-down clock; a decode fault within the cool-down issues no
restart and reports the giving-up condition instead; any non-decode fault
is reported as fatal immediately with no retry. -/
theorem decode_fault_recovery_policy :
    (∀ (env : ANEnv) (q : List Nat) (l : Int), env.rs = .opened → env.errCode = some 3 →
        env.now - l > 5000 →
        appendNext env q l = ([Act.warnRecover, Act.reload (env.cur + 2)], q, env.now)) ∧
    (∀ (env : ANEnv) (q : List Nat) (l : Int), env.rs = .opened → env.errCode = some 3 →
        env.now - l ≤ 5000 → appendNext env q l = ([Act.logGiveUp], q, l)) ∧
    (∀ (env : ANEnv) (q : List Nat) (l : Int) (c : Nat), env.rs = .opened →
        env.errCode = some c → c ≠ 3 → appendNext env q l = ([Act.logFatal], q, l)) := by
  refine ⟨?_, ?_, ?_⟩
  · intro env q l h1 h2 h3
    simp [appendNext, errorCheck, h1, h2, h3]
  · intro env q l h1 h2 h3
    have h4 : ¬(env.now - l > 5000) := by omega
    simp [appendNext, errorCheck, h1, h2, h4]
  · intro env q l c h1 h2 h3
    simp [appendNext, errorCheck, h1, h2, h3]

/-- A decode fault at wall-clock 6000 ms with the cool-down clock at 0. -/
def anDecodeFresh : ANEnv :=
  { rs := .opened, errCode := some 3, now := 6000, cur := 40, updating := false,
    res := .ok }

/-- A decode fault at wall-clock 6000 ms with the cool-down clock at
3000 ms, i.e. within the 5-second window. -/
def anDecodeRapid : ANEnv :=
  { rs := .opened, errCode := some 3, now := 6000, cur := 40, updating := false,
    res := .ok }

/-- A non-decode fault (MediaError code 2). -/
def anOtherFault : ANEnv :=
  { rs := .opened, errCode := some 2, now := 6000, cur := 40, updating := false,
    res := .ok }

/-- Witness for C3: the three policy branches at concrete inputs. -/
theorem decode_fault_recovery_policy_witness :
    appendNext anDecodeFresh [1] 0 =
      ([Act.warnRecover, Act.reload (anDecodeFresh.cur + 2)], [1], anDecodeFresh.now) ∧
    appendNext anDecodeRapid [1] 3000 = ([Act.logGiveUp], [1], 3000) ∧
    appendNext anOtherFault [1] 0 = ([Act.logFatal], [1], 0) :=
  ⟨decode_fault_recovery_policy.1 anDecodeFresh [1] 0 rfl rfl (by decide),
   decode_fault_recovery_policy.2.1 anDecodeRapid [1] 3000 rfl rfl (by decide),
   decode_fault_recovery_policy.2.2 anOtherFault [1] 0 2 rfl rfl (by decide)⟩

/-- Claim C9: the decode cool-down clock is one global timestamp: it
starts at 0 at page load, the loadVideo teardown of a full reload leaves
it untouched (so it survives session supersession), a decode fault within
5000 ms of a fault stamped by a previous, since-superseded session is
still treated as a rapid recurrence with no restart, and the very first
decode fault after page load (any realistic Date.now() exceeds 5000 ms)
is eligible for a corrective restart. -/
theorem decode_cooldown_global_clock :
    initGlobals.lastDecodeErrorTime = 0 ∧
    (∀ g : Globals, ((loadVideoEntry g).2).lastDecodeErrorTime = g.lastDecodeErrorTime) ∧
    (∀ (env : ANEnv) (q : List Nat) (l : Int), env.rs = .opened → env.errCode = some 3 →
        env.now - l ≤ 5000 → appendNext env q l = ([Act.logGiveUp], q, l)) ∧
    (∀ (env : ANEnv) (q : List Nat), env.rs = .opened → env.errCode = some 3 →
        env.now > 5000 →
        appendNext env q initGlobals.lastDecodeErrorTime =
          ([Act.warnRecover, Act.reload (env.cur + 2)], q, env.now)) := by
  refine ⟨rfl, fun g => rfl, ?_, ?_⟩
  · intro env q l h1 h2 h3
    have h4 : ¬(env.now - l > 5000) := by omega
    simp [appendNext, errorCheck, h1, h2, h4]
  · intro env q h1 h2 h3
    have h4 : env.now - initGlobals.lastDecodeErrorTime > 5000 := by
      simp [initGlobals]
      omega
    simp [appendNext, errorCheck, h1, h2, h4]

/-- A decode fault at wall-clock 9000 ms; paired below with a clock
stamped at 6000 ms by an earlier session and with the page-load clock. -/
def anStaleClock : ANEnv :=
  { rs := .opened, errCode := some 3, now := 9000, cur := 40, updating := false,
    res := .ok }

/-- Witness for C9: a reload preserves the clock; a fault 3000 ms after a
previous session's fault yields no restart; the first fault after page
load restarts. -/
theorem decode_cooldown_global_clock_witness :
    ((loadVideoEntry initGlobals).2).lastDecodeErrorTime = initGlobals.lastDecodeErrorTime ∧
    appendNext anStaleClock [1] 6000 = ([Act.logGiveUp], [1], 6000) ∧
    appendNext anStaleClock [1] initGlobals.lastDecodeErrorTime =
      ([Act.warnRecover, Act.reload (anStaleClock.cur + 2)], [1], anStaleClock.now) :=
  ⟨decode_cooldown_global_clock.2.1 initGlobals,
   decode_cooldown_global_clock.2.2.1 anStaleClock [1] 6000 rfl rfl (by decide),
   decode_cooldown_global_clock.2.2.2 anStaleClock [1] rfl rfl (by decide)⟩

/-- Claim C4: the subtitle select handler only swaps side-channel text
tracks: none of its actions cancels or restarts the byte stream; the
audio select handler with a genuinely different index always restarts the
stream at the current playback position carrying the new index, and such
a restart cancels the active fetch. -/
theorem track_switch_restart_policy :
    (∀ (idx : Int) (avail : List Int),
        (subtitleSelectOnChange idx avail).any isStreamAct = false) ∧
    (∀ (cur newIndex : Int) (t : ℚ), newIndex ≠ cur →
        audioSelectOnChange cur newIndex t = (newIndex, [UIAct.startStream t newIndex])) ∧
    (∀ (env : StartEnv) (t : ℚ) (audio : Int), env.hasActiveFetch = true →
        Act.cancelFetch ∈ (activeStartRun env t audio).1) := by
  refine ⟨?_, ?_, ?_⟩
  · intro idx avail
    unfold subtitleSelectOnChange
    split
    · split <;> simp [isStreamAct]
    · simp [isStreamAct]
  · intro cur newIndex t h
    simp [audioSelectOnChange, h]
  · intro env t audio h
    have hmem : Act.cancelFetch ∈ startActs1 env := by
      simp [startActs1, startActs0, h]
    unfold activeStartRun
    repeat' split
    all_goals simp_all

/-- An audio-track restart at position 50 with a fetch in flight. -/
def envRestartW : StartEnv :=
  { hasActiveFetch := true, rs := .opened, upd := fun _ => false, flushOk := true,
    retryCount := 0, fetchOk := true, header := none, rsAtResponse := .opened }

/-- Witness for C4: switching from track 0 to 1 at position 50 restarts
with the new index, and the restart cancels the in-flight fetch. -/
theorem track_switch_restart_policy_witness :
    audioSelectOnChange 0 1 50 = (1, [UIAct.startStream 50 1]) ∧
    Act.cancelFetch ∈ (activeStartRun envRestartW 50 1).1 :=
  ⟨track_switch_restart_policy.2.1 0 1 50 (by decide),
   track_switch_restart_policy.2.2 envRestartW 50 1 rfl⟩

/-- A seek during streaming whose full-range remove is rejected by the
sink (the catch at part_003 line 299), with the sink otherwise idle. -/
def envFlushFail : StartEnv :=
  { hasActiveFetch := true, rs := .opened, upd := fun _ => false, flushOk := false,
    retryCount := 0, fetchOk := true, header := none, rsAtResponse := .opened }

/-- Counterexample to C5 as stated: on this seek the attempt re-enters
streaming although no full-range remove was ever issued (the flush threw
and was only warned about), so a seek does not always remove all buffered
content before streaming resumes. -/
theorem seek_full_flush_cex :
    (activeStartRun envFlushFail 100 0).2 = .streaming 100 ∧
    Act.sbRemoveAll ∉ (activeStartRun envFlushFail 100 0).1 ∧
    Act.warnFlushFailed ∈ (activeStartRun envFlushFail 100 0).1 := by
  refine ⟨by decide, by decide, by decide⟩

/-- Claim C5 (amended): every seek restart reaches streaming only with the
source open and the sink quiescent at the final check, and whenever the
sink accepts the flush the action sequence is exactly: cancel the active
fetch, fresh controller, clear the pending queue, abort the sink
operation, one single full-range remove, then the offset assignment and
the new fetch (followed only by offset assignments from the response); a
sink that rejects the flush leads to streaming without the remove, after
a logged warning (see the counterexample). -/
theorem seek_hard_restart_amended :
    (∀ (env : StartEnv) (t : ℚ) (audio : Int) (off : ℚ),
        (activeStartRun env t audio).2 = .streaming off →
        env.rs = .opened ∧ env.upd (preFetchTick env) = false) ∧
    (∀ (env : StartEnv) (t : ℚ) (audio : Int),
        env.rs = .opened →
        env.upd (waitTicks env.upd 0 safetiesBound) = false →
        env.flushOk = true →
        env.upd (preFetchTick env) = false →
        env.fetchOk = true →
        ∃ post : List Act,
          (activeStartRun env t audio).1 =
            (if env.hasActiveFetch then [Act.cancelFetch] else []) ++
              [Act.newController, Act.clearQueue, Act.sbAbort, Act.sbRemoveAll,
                Act.setOffset t, Act.fetchStart t audio] ++ post ∧
          ∀ x ∈ post, ∃ u : ℚ, x = Act.setOffset u) := by
  constructor
  · intro env t audio off h
    unfold activeStartRun at h
    repeat' split at h
    all_goals simp_all
  · intro env t audio h1 h2 h3 h4 h5
    have hacts : startActs1 env =
        (if env.hasActiveFetch then [Act.cancelFetch] else []) ++
          [Act.newController, Act.clearQueue, Act.sbAbort, Act.sbRemoveAll] := by
      simp [startActs1, startActs0, h1, h2, h3]
    unfold activeStartRun
    rw [h4]
    simp only [h1, h5]
    by_cases hr : env.rsAtResponse = .opened
    · refine ⟨[Act.setOffset (responseOffset env.header t)], ?_, ?_⟩
      · simp [hr, hacts]
      · intro x hx
        simp at hx
        exact ⟨_, hx⟩
    · refine ⟨[], ?_, by simp⟩
      simp [hr, hacts]

/-- A seek at position 7 with an idle, flush-accepting sink. -/
def envSeekGood : StartEnv :=
  { hasActiveFetch := true, rs := .opened, upd := fun _ => false, flushOk := true,
    retryCount := 0, fetchOk := true, header := none, rsAtResponse := .opened }

/-- Witness for C5 (amended): the concrete seek emits the full hard
restart sequence with its single full-range remove before the fetch. -/
theorem seek_hard_restart_amended_witness :
    ∃ post : List Act,
      (activeStartRun envSeekGood 7 0).1 =
        (if envSeekGood.hasActiveFetch then [Act.cancelFetch] else []) ++
          [Act.newController, Act.clearQueue, Act.sbAbort, Act.sbRemoveAll,
            Act.setOffset 7, Act.fetchStart 7 0] ++ post ∧
      ∀ x ∈ post, ∃ u : ℚ, x = Act.setOffset u :=
  seek_hard_restart_amended.2 envSeekGood 7 0 rfl rfl rfl rfl rfl

/-- A quota-rejected append at playback position 10: no buffered content
lies more than 30 seconds behind, so the trim removes nothing. -/
def anQuotaTight : ANEnv :=
  { rs := .opened, errCode := none, now := 0, cur := 10, updating := false,
    res := .quota }

/-- Counterexample to C7 as stated: when trimming cannot free room (the
position is within the first 30 seconds) the quota-rejected chunk is NOT
dropped — it stays at the head of the queue — and no warning action is
emitted, contradicting the claimed drop-with-warning. -/
theorem quota_retention_cex :
    appendNext anQuotaTight [7] 0 = ([], [7], 0) := by
  simp [appendNext, errorCheck, cleanupBuffer, anQuotaTight]
  norm_num

/-- Claim C7 (amended): a quota-rejected append trims buffered content
more than 30 seconds behind the playback position when such content can
exist and keeps the same chunk at the head of the queue, so the next
sink-idle invocation retries exactly that append (second conjunct); when
no content lies behind the retention distance the chunk is still
retained, with no trim and no warning, to be retried on later events;
only a non-quota append error drops the head chunk, after a logged
error. -/
theorem quota_trim_retry_amended :
    (∀ (env : ANEnv) (c : Nat) (rest : List Nat) (l : Int),
        env.rs = .opened → env.errCode = none → env.updating = false →
        env.res = .quota →
        appendNext env (c :: rest) l =
          ((if env.cur - 30 > 0 then [Act.sbRemove (env.cur - 30)] else []),
           c :: rest, l)) ∧
    (∀ (env : ANEnv) (c : Nat) (rest : List Nat) (l : Int),
        env.rs = .opened → env.errCode = none → env.updating = false →
        env.res = .ok →
        appendNext env (c :: rest) l = ([Act.sbAppend c], rest, l)) ∧
    (∀ (env : ANEnv) (c : Nat) (rest : List Nat) (l : Int),
        env.rs = .opened → env.errCode = none → env.updating = false →
        env.res = .other →
        appendNext env (c :: rest) l = ([Act.logAppendError], rest, l)) := by
  refine ⟨?_, ?_, ?_⟩ <;>
    (intro env c rest l h1 h2 h3 h4;
     simp [appendNext, errorCheck, cleanupBuffer, h1, h2, h3, h4])

/-- A quota-rejected append at position 100: content more than 30 seconds
behind exists to trim. -/
def anQuotaRoom : ANEnv :=
  { rs := .opened, errCode := none, now := 0, cur := 100, updating := false,
    res := .quota }

/-- The retry of the same append once the sink accepts it. -/
def anAppendOk : ANEnv :=
  { rs := .opened, errCode := none, now := 0, cur := 100, updating := false,
    res := .ok }

/-- Witness for C7 (amended): the quota rejection at position 100 trims
up to 70 and keeps chunk 5 queued; the follow-up invocation appends that
same chunk. -/
theorem quota_trim_retry_amended_witness :
    appendNext anQuotaRoom [5] 0 =
      ((if anQuotaRoom.cur - 30 > 0 then [Act.sbRemove (anQuotaRoom.cur - 30)] else []),
       [5], 0) ∧
    appendNext anAppendOk [5] 0 = ([Act.sbAppend 5], [], 0) :=
  ⟨quota_trim_retry_amended.1 anQuotaRoom 5 [] 0 rfl rfl rfl rfl,
   quota_trim_retry_amended.2.1 anAppendOk 5 [] 0 rfl rfl rfl rfl⟩
